import Mathlib

/-!
# Verification of the storage-mode resolution and upload protocol

Shallow embedding of the storage core of the Office-PowerPoint-MCP-Server
repository (`src/utils/s3_utils.py` and `src/tools/presentation_tools.py`)
together with theorems settling the specification claims.

Conventions of the embedding:
* Python strings are Lean `String`s (a `String` is a list of characters).
* Environment variables are an explicit `Env` record of `Option String`s;
  `os.getenv` with a default becomes `Option.getD`.
* A Python function that may raise becomes `Except String _`; an uncaught
  exception is an `Except.error` value escaping the function.
* External collaborators that can raise (boto3 upload, presigned-url
  generation, the python-pptx library calls) are passed in as explicit
  outcome parameters, and the side effects the dispatcher triggers are
  returned as an explicit `List Effect` so that "never writes locally" /
  "never contacts the remote store" are provable statements.
* The framework-injected getters `get_current_presentation_id()` and
  `get_template_search_directories()`, and `os.path.exists`, are modelled
  as non-raising inputs (`current_id`, `search_dirs`, `pathExists`): they
  are closures supplied by the registering server, and several tools call
  them outside any `try` block (e.g. `save_presentation` lines 130-138
  precede its `try` at line 140), so the no-propagation statements below
  are relative to this convention and do not cover a raising injected
  getter.
-/

/-- The separator character test used by `rstrip('/')`. -/
def isSlash (c : Char) : Bool := c == '/'

/-- The complement, used by `os.path.basename`. -/
def notSlash (c : Char) : Bool := !(c == '/')

/-- Python's `s.rstrip('/')` on the character list: remove every trailing
`'/'` character.  This is the `normalize` step of remote key construction
(`s3_utils.py` line 67). -/
def dropTrailingSlashes (l : List Char) : List Char :=
  (l.reverse.dropWhile isSlash).reverse

/-- `rstripSlash s` embeds Python `s.rstrip('/')`. -/
def rstripSlash (s : String) : String :=
  String.mk (dropTrailingSlashes s.data)

/-- Python `s.endswith(suf)`. -/
def pyEndswith (s suf : String) : Bool :=
  suf.data.isSuffixOf s.data

/-- Python `os.path.basename` (POSIX): the part of the path after the last
`'/'` (`presentation_tools.py` line 149). -/
def basename (s : String) : String :=
  String.mk ((s.data.reverse.takeWhile notSlash).reverse)

/-- The extension-ensuring step of `S3Handler.upload_presentation`
(`s3_utils.py` lines 63-64): append `".pptx"` exactly when the name does
not already end with it. -/
def ensurePptx (filename : String) : String :=
  if pyEndswith filename ".pptx" then filename else filename ++ ".pptx"

/-! Basic facts about the character-level operations. -/

theorem dropWhile_head_not {p : Char → Bool} {l : List Char} {a : Char}
    (h : (l.dropWhile p).head? = some a) : p a = false := by
  induction l with
  | nil => simp at h
  | cons b t ih =>
    rw [List.dropWhile_cons] at h
    by_cases hb : p b
    · rw [if_pos hb] at h
      exact ih h
    · rw [if_neg hb] at h
      simp only [List.head?_cons, Option.some.injEq] at h
      cases h
      simpa using hb

theorem dropWhile_idem (p : Char → Bool) (l : List Char) :
    (l.dropWhile p).dropWhile p = l.dropWhile p := by
  induction l with
  | nil => rfl
  | cons a t ih =>
    rw [List.dropWhile_cons]
    by_cases h : p a
    · simp [h, ih]
    · simp [h, List.dropWhile_cons]

theorem dropTrailingSlashes_idem (l : List Char) :
    dropTrailingSlashes (dropTrailingSlashes l) = dropTrailingSlashes l := by
  simp [dropTrailingSlashes, dropWhile_idem]

/-- The normalized prefix never ends with a separator. -/
theorem rstripSlash_not_endswith_slash (p : String) :
    pyEndswith (rstripSlash p) "/" = false := by
  have key : ∀ m : List Char, List.isPrefixOf ['/'] (m.dropWhile isSlash) = false := by
    intro m
    cases h : m.dropWhile isSlash with
    | nil => rfl
    | cons a t =>
      have ha : isSlash a = false := dropWhile_head_not (by rw [h]; rfl)
      have ha' : a ≠ '/' := by simpa [isSlash] using ha
      simp [List.isPrefixOf]
      exact fun hc => ha' hc.symm
  show List.isSuffixOf "/".data (dropTrailingSlashes p.data) = false
  unfold List.isSuffixOf dropTrailingSlashes
  rw [List.reverse_reverse]
  exact key p.data.reverse

/-- The characters removed by normalization are exactly a run of
trailing separators. -/
theorem rstripSlash_append_replicate (p : String) :
    ∃ k, p.data = (rstripSlash p).data ++ List.replicate k '/' := by
  have hsplit : p.data.reverse.takeWhile isSlash ++ p.data.reverse.dropWhile isSlash
      = p.data.reverse := List.takeWhile_append_dropWhile isSlash p.data.reverse
  have htake : p.data.reverse.takeWhile isSlash
      = List.replicate (p.data.reverse.takeWhile isSlash).length '/' := by
    apply List.eq_replicate_of_mem
    intro b hb
    have hbs := List.mem_takeWhile_imp hb
    simpa [isSlash] using hbs
  have hrev := congrArg List.reverse hsplit
  rw [List.reverse_append, List.reverse_reverse] at hrev
  have h2 : (p.data.reverse.takeWhile isSlash).reverse
      = List.replicate (p.data.reverse.takeWhile isSlash).length '/' := by
    rw [htake, List.reverse_replicate, List.length_replicate]
  have h3 : (rstripSlash p).data = (p.data.reverse.dropWhile isSlash).reverse := rfl
  refine ⟨(p.data.reverse.takeWhile isSlash).length, ?_⟩
  rw [← h2, h3, hrev]

theorem pyEndswith_eq_true_iff {s suf : String} :
    pyEndswith s suf = true ↔ suf.data <:+ s.data := by
  unfold pyEndswith
  exact List.isSuffixOf_iff_suffix

/-! ## Data model: configuration environment and the storage resolver -/

/-- Python `str.lower` on an ASCII character. -/
def charLower (c : Char) : Char :=
  if 'A' ≤ c ∧ c ≤ 'Z' then Char.ofNat (c.toNat + 32) else c

/-- Python `s.lower()`. -/
def pyLower (s : String) : String := String.mk (s.data.map charLower)

/-- Python truthiness of an optional string (`not self.s3_bucket` in
`s3_utils.py` line 24): `None` and the empty string are falsy. -/
def pyTruthy : Option String → Bool
  | none => false
  | some s => !(s == "")

/-- Python string interpolation of an optional value (`None` prints as
`"None"`). -/
def optStr : Option String → String
  | none => "None"
  | some s => s

/-- The environment variables read by `S3Handler.__init__`
(`s3_utils.py` lines 18-21), plus whether boto3 client construction
succeeds (`NoCredentialsError` otherwise, lines 27-37). `s3PFX` stands
for the `S3_PREFIX` variable. -/
structure Env where
  S3_ENABLED : Option String
  S3_BUCKET_NAME : Option String
  s3PFX : Option String
  AWS_DEFAULT_REGION : Option String
  credentialsOk : Bool
deriving DecidableEq

/-- The resolved storage configuration held by `S3Handler` after a
successful `__init__`.  `s3_pfx` embeds the source field holding the key
prefix string. -/
structure S3Handler where
  s3_enabled : Bool
  s3_bucket : Option String
  s3_pfx : String
  s3_region : String
deriving DecidableEq

/-- `S3Handler.__init__` (`s3_utils.py` lines 16-40).  A raised
`ValueError` is the `Except.error` case. -/
def mkS3Handler (env : Env) : Except String S3Handler :=
  let s3_enabled := pyLower (env.S3_ENABLED.getD "false") == "true"
  let s3_bucket := env.S3_BUCKET_NAME
  let s3_pfx := env.s3PFX.getD "presentations/"
  let s3_region := env.AWS_DEFAULT_REGION.getD "us-east-1"
  if s3_enabled then
    if !pyTruthy s3_bucket then
      .error "S3_ENABLED is true but S3_BUCKET_NAME is not set"
    else if !env.credentialsOk then
      .error "AWS credentials not configured properly"
    else
      .ok { s3_enabled := true, s3_bucket := s3_bucket,
            s3_pfx := s3_pfx, s3_region := s3_region }
  else
    .ok { s3_enabled := false, s3_bucket := s3_bucket,
          s3_pfx := s3_pfx, s3_region := s3_region }

/-- The module-level singleton protocol of `get_s3_handler`
(`s3_utils.py` lines 126-134): the cached `_s3_handler` is the explicit
`state`; the call returns the handler together with the new cache state. -/
def get_s3_handler (state : Option S3Handler) (env : Env) :
    Except String (S3Handler × Option S3Handler) :=
  match state with
  | some h => .ok (h, some h)
  | none =>
    match mkS3Handler env with
    | .error e => .error e
    | .ok h => .ok (h, some h)

/-! ## Operations: upload, presigned URL, and the tool entry points -/

/-- An opaque in-memory presentation document; only the slide count
(`len(pres.slides)`) and the layout count (`len(pres.slide_layouts)`)
are observable to this layer. -/
structure Pres where
  slides : Nat
  layouts : Nat
deriving DecidableEq

/-- Side effects the storage core can trigger, recorded explicitly. -/
inductive Effect
  | localWrite (path : String)
  | s3Upload (bucket key : String)
  | presign (key : String)
deriving DecidableEq

def isLocalWrite : Effect → Bool
  | .localWrite _ => true
  | _ => false

def isRemoteOp : Effect → Bool
  | .s3Upload _ _ => true
  | .presign _ => true
  | _ => false

/-- The dictionary returned by `S3Handler.upload_presentation`
(`s3_utils.py` lines 84-99): either the success record or the
`ClientError` failure record. -/
inductive UploadResult
  | ok (s3_url https_url bucket key filename : String)
  | fail (error : String)
deriving DecidableEq

/-- `S3Handler.upload_presentation` (`s3_utils.py` lines 42-99).
`clientError` is the outcome of the boto3 `upload_fileobj` call
(`some e` models a raised `ClientError e`, which the source catches);
document serialization to the in-memory buffer is opaque and assumed to
succeed.  The raised `ValueError` when S3 is disabled is the
`Except.error` case. -/
def upload_presentation (h : S3Handler) (prs : Pres) (filename : String)
    (clientError : Option String) : Except String (UploadResult × List Effect) :=
  let _ := prs
  if !h.s3_enabled then
    .error "S3 is not enabled. Set S3_ENABLED=true"
  else
    let filename1 := ensurePptx filename
    let s3_key := rstripSlash h.s3_pfx ++ "/" ++ filename1
    match clientError with
    | some e =>
      .ok (.fail ("Failed to upload to S3: " ++ e),
           [.s3Upload (optStr h.s3_bucket) s3_key])
    | none =>
      let s3_url := "s3://" ++ optStr h.s3_bucket ++ "/" ++ s3_key
      let https_url := "https://" ++ optStr h.s3_bucket ++ ".s3." ++ h.s3_region
          ++ ".amazonaws.com/" ++ s3_key
      .ok (.ok s3_url https_url (optStr h.s3_bucket) s3_key filename1,
           [.s3Upload (optStr h.s3_bucket) s3_key])

/-- `S3Handler.generate_presigned_url` (`s3_utils.py` lines 101-124).
`clientResult` is the outcome of the boto3 signing call; `none` models a
raised `ClientError`, which the source catches and converts to `None`. -/
def generate_presigned_url (h : S3Handler) (s3_key : String)
    (clientResult : Option String) : Option String :=
  let _ := s3_key
  if !h.s3_enabled then none else clientResult

/-! ## The tool entry points of `presentation_tools.py` -/

/-- Python dict assignment `presentations[id] = pres` on an association
list with unique keys: replace in place if present, append otherwise. -/
def dictInsert (d : List (String × Pres)) (k : String) (v : Pres) :
    List (String × Pres) :=
  if d.any (fun kv => kv.1 == k) then
    d.map (fun kv => if kv.1 == k then (k, v) else kv)
  else
    d ++ [(k, v)]

/-- The flat dictionary returned by the `save_presentation` tool; absent
keys are `none`. -/
structure SaveResponse where
  success : Bool
  message : Option String := none
  storage_type : Option String := none
  s3_url : Option String := none
  https_url : Option String := none
  bucket : Option String := none
  key : Option String := none
  filename : Option String := none
  presentation_id : Option String := none
  presigned_url : Option String := none
  presigned_url_expires : Option String := none
  file_path : Option String := none
  error : Option String := none
deriving DecidableEq

/-- The `save_presentation` tool (`presentation_tools.py` lines 113-217).

Collaborator outcomes are explicit parameters:
* `handler` — the `get_s3_handler()` call (its `ValueError` is caught by
  the `except ValueError` arm, lines 203-209);
* `clientError` — the boto3 upload outcome inside
  `upload_presentation`;
* `presignClientResult` — the boto3 signing outcome inside
  `generate_presigned_url`;
* `localSave` — `ppt_utils.save_presentation`, returning the saved path
  or raising (caught by the generic `except` arm, lines 211-217).

The `pres_id` resolution and registry check (lines 130-138) run before
the `try` at line 140; they call only the injected
`get_current_presentation_id()` getter (the `current_id` input, see the
module conventions) and dict membership, so under that convention every
arm of the source function returns a dictionary and the result type is a
plain `SaveResponse` (no escaping exception), paired with the side
effects triggered. -/
def save_presentation (presentations : List (String × Pres))
    (file_path : String) (presentation_id : Option String)
    (current_id : Option String) (handler : Except String S3Handler)
    (clientError : Option String) (presignClientResult : Option String)
    (localSave : String → Except String String) : SaveResponse × List Effect :=
  let pres_id := match presentation_id with
    | some i => some i
    | none => current_id
  match pres_id with
  | none =>
    ({ success := false,
       error := some "No presentation is currently loaded or the specified ID is invalid" }, [])
  | some pid =>
    match presentations.lookup pid with
    | none =>
      ({ success := false,
         error := some "No presentation is currently loaded or the specified ID is invalid" }, [])
    | some pres =>
      match handler with
      | .error e =>
        ({ success := false,
           error := some ("Configuration error: " ++ e
             ++ ". Please check your S3 environment variables.") }, [])
      | .ok h =>
        if h.s3_enabled then
          let filename := basename file_path
          match upload_presentation h pres filename clientError with
          | .error e =>
            ({ success := false,
               error := some ("Configuration error: " ++ e
                 ++ ". Please check your S3 environment variables.") }, [])
          | .ok (.fail err, effs) =>
            ({ success := false, storage_type := some "s3", error := some err }, effs)
          | .ok (.ok s3u hu b k fn, effs) =>
            match generate_presigned_url h k presignClientResult with
            | some purl =>
              ({ success := true,
                 message := some ("Presentation saved to S3: " ++ s3u
                   ++ "\n\nTemporary download URL (expires in 1 hour):\n" ++ purl),
                 storage_type := some "s3", s3_url := some s3u, https_url := some hu,
                 bucket := some b, key := some k, filename := some fn,
                 presentation_id := some pid, presigned_url := some purl,
                 presigned_url_expires := some "1 hour" },
               effs ++ [.presign k])
            | none =>
              ({ success := true,
                 message := some ("Presentation saved to S3: " ++ s3u),
                 storage_type := some "s3", s3_url := some s3u, https_url := some hu,
                 bucket := some b, key := some k, filename := some fn,
                 presentation_id := some pid },
               effs ++ [.presign k])
        else
          match localSave file_path with
          | .ok saved_path =>
            ({ success := true,
               message := some ("Presentation saved to local file: " ++ saved_path),
               storage_type := some "local", file_path := some saved_path,
               presentation_id := some pid }, [.localWrite file_path])
          | .error e =>
            ({ success := false,
               error := some ("Failed to save presentation: " ++ e) },
             [.localWrite file_path])

/-- Dictionary returned by the `create_presentation` tool on its only
return path (`presentation_tools.py` lines 34-38). -/
structure CreateResponse where
  presentation_id : String
  message : String
  slide_count : Nat
deriving DecidableEq

/-- The `create_presentation` tool (`presentation_tools.py` lines 20-38).
`newPres` is the outcome of the collaborator call
`ppt_utils.create_presentation()`.  The source has no `try`/`except`, so
a raising collaborator propagates: the result type is `Except`. -/
def create_presentation (presentations : List (String × Pres))
    (newPres : Except String Pres) (id : Option String) :
    Except String (CreateResponse × List (String × Pres)) :=
  match newPres with
  | .error e => .error e
  | .ok pres =>
    let theId := match id with
      | none => "presentation_" ++ toString (presentations.length + 1)
      | some i => i
    .ok ({ presentation_id := theId,
           message := "Created new presentation with ID: " ++ theId,
           slide_count := pres.slides },
         dictInsert presentations theId pres)

/-- Dictionary returned by the `open_presentation` tool; the error paths
return only the `error` key. -/
structure OpenResponse where
  presentation_id : Option String := none
  message : Option String := none
  slide_count : Option Nat := none
  error : Option String := none
deriving DecidableEq

/-- The `open_presentation` tool (`presentation_tools.py` lines 83-111).
`fileExists` is the `os.path.exists` outcome and `openResult` the guarded
collaborator call `ppt_utils.open_presentation` (whose exception is
caught, lines 93-98). -/
def open_presentation (presentations : List (String × Pres))
    (file_path : String) (fileExists : Bool) (openResult : Except String Pres)
    (id : Option String) : OpenResponse × List (String × Pres) :=
  if !fileExists then
    ({ error := some ("File not found: " ++ file_path) }, presentations)
  else
    match openResult with
    | .error e =>
      ({ error := some ("Failed to open presentation: " ++ e) }, presentations)
    | .ok pres =>
      let theId := match id with
        | none => "presentation_" ++ toString (presentations.length + 1)
        | some i => i
      ({ presentation_id := some theId,
         message := some ("Opened presentation from " ++ file_path
           ++ " with ID: " ++ theId),
         slide_count := some pres.slides },
       dictInsert presentations theId pres)

/-- Dictionary returned by the `get_storage_mode` tool. -/
structure StorageModeResponse where
  success : Bool
  storage_mode : Option String := none
  s3_bucket : Option String := none
  s3_pfx : Option String := none
  s3_region : Option String := none
  message : Option String := none
  error : Option String := none
deriving DecidableEq

/-- The `get_storage_mode` tool (`presentation_tools.py` lines 305-333);
the whole body sits in `try`/`except`, so the result is always a plain
dictionary. -/
def get_storage_mode (handler : Except String S3Handler) : StorageModeResponse :=
  match handler with
  | .error e =>
    { success := false, error := some ("Failed to get storage mode: " ++ e) }
  | .ok h =>
    if h.s3_enabled then
      { success := true, storage_mode := some "s3",
        s3_bucket := some (optStr h.s3_bucket),
        s3_pfx := some h.s3_pfx, s3_region := some h.s3_region,
        message := some "S3 storage is ENABLED - presentations will be saved to S3" }
    else
      { success := true, storage_mode := some "local",
        message := some "Local storage is active - presentations will be saved to local file system" }

/-- Python `os.path.join(d, n)` (POSIX, second argument relative):
insert a separator unless the first part is empty or already ends with
one. -/
def pyPathJoin (d n : String) : String :=
  if d == "" then n
  else if pyEndswith d "/" then d ++ n
  else d ++ "/" ++ n

/-- The template-path resolution shared by
`create_presentation_from_template` (lines 43-53) and
`get_template_file_info` (lines 243-253): use the literal path if it
exists, otherwise the first configured search directory containing the
path's base name; `none` is the `for`/`else` not-found fall-through. -/
def resolveTemplatePath (template_path : String) (pathExists : String → Bool)
    (search_dirs : List String) : Option String :=
  if pathExists template_path then some template_path
  else
    match search_dirs.find?
        (fun d => pathExists (pyPathJoin d (basename template_path))) with
    | some d => some (pyPathJoin d (basename template_path))
    | none => none

/-- Dictionary returned by the `create_presentation_from_template` tool;
the error paths return only the `error` key. -/
structure CreateFromTemplateResponse where
  presentation_id : Option String := none
  message : Option String := none
  template_path : Option String := none
  slide_count : Option Nat := none
  layout_count : Option Nat := none
  error : Option String := none
deriving DecidableEq

/-- The `create_presentation_from_template` tool
(`presentation_tools.py` lines 40-81).  `pathExists` embeds
`os.path.exists`, `search_dirs` the injected
`get_template_search_directories()`, `envPPT` the `PPT_TEMPLATE_PATH`
environment variable, and `createResult` the guarded collaborator call
`ppt_utils.create_presentation_from_template` (whose exception is
caught, lines 61-66). -/
def create_presentation_from_template (presentations : List (String × Pres))
    (template_path : String) (pathExists : String → Bool)
    (search_dirs : List String) (envPPT : Option String)
    (createResult : Except String Pres) (id : Option String) :
    CreateFromTemplateResponse × List (String × Pres) :=
  match resolveTemplatePath template_path pathExists search_dirs with
  | none =>
    let env_path_info := match envPPT with
      | some v => if v == "" then "" else " (PPT_TEMPLATE_PATH: " ++ v ++ ")"
      | none => ""
    ({ error := some ("Template file not found: " ++ template_path
        ++ ". Searched in " ++ String.intercalate ", " search_dirs
        ++ env_path_info) },
     presentations)
  | some tpath =>
    match createResult with
    | .error e =>
      ({ error := some ("Failed to create presentation from template: " ++ e) },
       presentations)
    | .ok pres =>
      let theId := match id with
        | none => "presentation_" ++ toString (presentations.length + 1)
        | some i => i
      ({ presentation_id := some theId,
         message := some ("Created new presentation from template '" ++ tpath
           ++ "' with ID: " ++ theId),
         template_path := some tpath,
         slide_count := some pres.slides,
         layout_count := some pres.layouts },
       dictInsert presentations theId pres)

/-- Dictionary returned by the `get_presentation_info` tool: either the
`error` key alone, or the collaborator's info dictionary (held opaquely
in `payload`) with the `presentation_id` key added (line 233). -/
structure PresInfoResponse where
  payload : Option Nat := none
  presentation_id : Option String := none
  error : Option String := none
deriving DecidableEq

/-- The `get_presentation_info` tool (`presentation_tools.py` lines
219-238).  `infoResult` is the guarded collaborator call
`ppt_utils.get_presentation_info` (exception caught, lines 231-238),
yielding an opaque info dictionary never inspected by this layer. -/
def get_presentation_info (presentations : List (String × Pres))
    (presentation_id current_id : Option String)
    (infoResult : Except String Nat) : PresInfoResponse :=
  let pres_id := match presentation_id with
    | some i => some i
    | none => current_id
  match pres_id with
  | none =>
    { error := some "No presentation is currently loaded or the specified ID is invalid" }
  | some pid =>
    match presentations.lookup pid with
    | none =>
      { error := some "No presentation is currently loaded or the specified ID is invalid" }
    | some _ =>
      match infoResult with
      | .error e => { error := some ("Failed to get presentation info: " ++ e) }
      | .ok payload => { payload := some payload, presentation_id := some pid }

/-- Dictionary returned by the `get_template_file_info` tool: the
collaborator's template-info dictionary (opaque `payload`) or the
`error` key. -/
structure TemplateInfoResponse where
  payload : Option Nat := none
  error : Option String := none
deriving DecidableEq

/-- The `get_template_file_info` tool (`presentation_tools.py` lines
240-264).  Template resolution as in `create_presentation_from_template`
(without the environment-variable hint in the message); `infoResult` is
the guarded collaborator call `ppt_utils.get_template_info` (exception
caught, lines 259-264). -/
def get_template_file_info (template_path : String)
    (pathExists : String → Bool) (search_dirs : List String)
    (infoResult : Except String Nat) : TemplateInfoResponse :=
  match resolveTemplatePath template_path pathExists search_dirs with
  | none =>
    { error := some ("Template file not found: " ++ template_path
        ++ ". Searched in " ++ String.intercalate ", " search_dirs) }
  | some _ =>
    match infoResult with
    | .error e => { error := some ("Failed to get template info: " ++ e) }
    | .ok payload => { payload := some payload }

/-- Dictionary returned by the `set_core_properties` tool; the not-found
path returns only the `error` key, the two `try` arms set `success`. -/
structure SetCorePropsResponse where
  success : Option Bool := none
  message : Option String := none
  error : Option String := none
deriving DecidableEq

/-- The `set_core_properties` tool (`presentation_tools.py` lines
266-303).  The metadata fields (title, subject, author, keywords,
comments) are forwarded opaquely to the guarded collaborator call
`ppt_utils.set_core_properties`, whose outcome is `setResult`
(exception caught, lines 299-303). -/
def set_core_properties (presentations : List (String × Pres))
    (presentation_id current_id : Option String)
    (setResult : Except String Unit) : SetCorePropsResponse :=
  let pres_id := match presentation_id with
    | some i => some i
    | none => current_id
  match pres_id with
  | none =>
    { error := some "No presentation is currently loaded or the specified ID is invalid" }
  | some pid =>
    match presentations.lookup pid with
    | none =>
      { error := some "No presentation is currently loaded or the specified ID is invalid" }
    | some _ =>
      match setResult with
      | .error e =>
        { success := some false,
          error := some ("Failed to set core properties: " ++ e) }
      | .ok _ =>
        { success := some true,
          message := some "Core properties updated successfully" }


/-! ## Claim theorems -/

/-- C1: with remote mode enabled and a non-empty bucket, `save_presentation`
triggers no local filesystem write, and on a successful upload the remote
key is `normalize(prefix) ++ "/" ++ filename` where `filename` is the base
name of the caller-supplied path with the `.pptx` extension ensured; the
canonical URI is `s3://{bucket}/{key}` and the HTTPS URL is
`https://{bucket}.s3.{region}.amazonaws.com/{key}`. -/
theorem remote_persist_key_and_uris
    (ps : List (String × Pres)) (fp pid : String) (p : Pres)
    (h : S3Handler) (b : String) (ce pr : Option String)
    (ls : String → Except String String)
    (hmem : ps.lookup pid = some p)
    (hen : h.s3_enabled = true)
    (hb : h.s3_bucket = some b) (hbne : b ≠ "") :
    ((save_presentation ps fp (some pid) none (.ok h) ce pr ls).2.all
        (fun e => !isLocalWrite e)) = true
    ∧ (save_presentation ps fp (some pid) none (.ok h) none pr ls).1.key =
        some (rstripSlash h.s3_pfx ++ "/" ++ ensurePptx (basename fp))
    ∧ (save_presentation ps fp (some pid) none (.ok h) none pr ls).1.s3_url =
        some ("s3://" ++ b ++ "/" ++ (rstripSlash h.s3_pfx ++ "/" ++ ensurePptx (basename fp)))
    ∧ (save_presentation ps fp (some pid) none (.ok h) none pr ls).1.https_url =
        some ("https://" ++ b ++ ".s3." ++ h.s3_region ++ ".amazonaws.com/"
          ++ (rstripSlash h.s3_pfx ++ "/" ++ ensurePptx (basename fp))) := by
  have hne := hbne
  refine ⟨?_, ?_, ?_, ?_⟩ <;>
    simp only [save_presentation, upload_presentation, generate_presigned_url,
      hmem, hen, hb, optStr] <;>
    cases ce <;> cases pr <;>
    simp [isLocalWrite, optStr, hen]

/-- C1 witness: bucket `demo-bucket`, prefix `presentations/`, requested
name `report` yield key `presentations/report.pptx` and the URIs of the
claim's example. -/
theorem remote_persist_key_and_uris_witness :
    ((save_presentation [("p1", ⟨1, 1⟩)] "report" (some "p1") none
        (.ok ⟨true, some "demo-bucket", "presentations/", "us-east-1"⟩)
        none none (fun s => .ok s)).2.all (fun e => !isLocalWrite e)) = true
    ∧ (save_presentation [("p1", ⟨1, 1⟩)] "report" (some "p1") none
        (.ok ⟨true, some "demo-bucket", "presentations/", "us-east-1"⟩)
        none none (fun s => .ok s)).1.key = some "presentations/report.pptx"
    ∧ (save_presentation [("p1", ⟨1, 1⟩)] "report" (some "p1") none
        (.ok ⟨true, some "demo-bucket", "presentations/", "us-east-1"⟩)
        none none (fun s => .ok s)).1.s3_url =
        some "s3://demo-bucket/presentations/report.pptx"
    ∧ (save_presentation [("p1", ⟨1, 1⟩)] "report" (some "p1") none
        (.ok ⟨true, some "demo-bucket", "presentations/", "us-east-1"⟩)
        none none (fun s => .ok s)).1.https_url =
        some "https://demo-bucket.s3.us-east-1.amazonaws.com/presentations/report.pptx" :=
  remote_persist_key_and_uris [("p1", ⟨1, 1⟩)] "report" "p1" ⟨1, 1⟩
    ⟨true, some "demo-bucket", "presentations/", "us-east-1"⟩ "demo-bucket"
    none none (fun s => .ok s) rfl rfl rfl (by decide)

/-- C2 counterexample: `create_presentation` has no `try`/`except`; when
its collaborator call `ppt_utils.create_presentation()` raises, the
exception propagates to the caller instead of being converted into a
result dictionary. -/
theorem create_propagates_counterexample :
    create_presentation [] (.error "create failed") none =
      .error "create failed" := rfl

/-- C2 amended: every registered tool except `create_presentation`
translates failure into a returned dictionary carrying `success: false`
or a top-level `error` string, for every input including a raising
guarded collaborator call (the framework-injected getters are
non-raising inputs, see the module conventions): `save_presentation` and
`get_storage_mode` always return `success: true` or `success: false`
with an `error`; `open_presentation`,
`create_presentation_from_template`, `get_presentation_info`,
`get_template_file_info` and `set_core_properties` always return either
an error dictionary or their success dictionary, and their raising
`ppt_utils` collaborator yields exactly the guarded error dictionary.
Only `create_presentation` performs no translation: its raising
collaborator propagates uncaught. -/
theorem tool_error_translation_amended :
    (∀ ps fp pi ci hd ce pr ls,
        (save_presentation ps fp pi ci hd ce pr ls).1.success = true
        ∨ ((save_presentation ps fp pi ci hd ce pr ls).1.success = false
            ∧ ((save_presentation ps fp pi ci hd ce pr ls).1.error).isSome = true))
    ∧ (∀ hd, (get_storage_mode hd).success = true
        ∨ ((get_storage_mode hd).success = false
            ∧ ((get_storage_mode hd).error).isSome = true))
    ∧ (∀ ps fp fe orr id,
        ((open_presentation ps fp fe orr id).1.error).isSome = true
        ∨ ((open_presentation ps fp fe orr id).1.presentation_id).isSome = true)
    ∧ (∀ ps fp id e, (open_presentation ps fp true (.error e) id).1 =
        { error := some ("Failed to open presentation: " ++ e) })
    ∧ (∀ ps tp pe sd env cr id,
        ((create_presentation_from_template ps tp pe sd env cr id).1.error).isSome = true
        ∨ ((create_presentation_from_template ps tp pe sd env cr id).1.presentation_id).isSome = true)
    ∧ (∀ ps tp sd env e id,
        (create_presentation_from_template ps tp (fun x => true) sd env (.error e) id).1 =
          { error := some ("Failed to create presentation from template: " ++ e) })
    ∧ (∀ ps pi ci ir,
        ((get_presentation_info ps pi ci ir).error).isSome = true
        ∨ ((get_presentation_info ps pi ci ir).presentation_id).isSome = true)
    ∧ (∀ pid p e, get_presentation_info [(pid, p)] (some pid) none (.error e) =
        { error := some ("Failed to get presentation info: " ++ e) })
    ∧ (∀ tp pe sd ir,
        ((get_template_file_info tp pe sd ir).error).isSome = true
        ∨ ((get_template_file_info tp pe sd ir).payload).isSome = true)
    ∧ (∀ tp sd e, get_template_file_info tp (fun x => true) sd (.error e) =
        { error := some ("Failed to get template info: " ++ e) })
    ∧ (∀ ps pi ci sr,
        ((set_core_properties ps pi ci sr).error).isSome = true
        ∨ (set_core_properties ps pi ci sr).success = some true)
    ∧ (∀ pid p e, set_core_properties [(pid, p)] (some pid) none (.error e) =
        { success := some false,
          error := some ("Failed to set core properties: " ++ e) })
    ∧ (∀ ps e id, create_presentation ps (.error e) id = .error e) := by
  refine ⟨?_, ?_, ?_, ?_, ?_, ?_, ?_, ?_, ?_, ?_, ?_, ?_, ?_⟩
  · intro ps fp pi ci hd ce pr ls
    have main : ∀ pidOpt : Option String,
        (save_presentation ps fp pidOpt none hd ce pr ls).1.success = true
        ∨ ((save_presentation ps fp pidOpt none hd ce pr ls).1.success = false
            ∧ ((save_presentation ps fp pidOpt none hd ce pr ls).1.error).isSome = true) := by
      intro pidOpt
      rcases pidOpt with _ | pid
      · simp [save_presentation]
      · rcases hlp : ps.lookup pid with _ | pres
        · simp [save_presentation, hlp]
        · cases hd with
          | error e => simp [save_presentation, hlp]
          | ok h =>
            cases hE : h.s3_enabled with
            | true =>
              rcases ce with _ | e2
              · rcases pr with _ | u <;>
                  simp [save_presentation, upload_presentation,
                    generate_presigned_url, hlp, hE]
              · simp [save_presentation, upload_presentation, hlp, hE]
            | false =>
              rcases hls : ls fp with e3 | sp <;>
                simp [save_presentation, hlp, hE, hls]
    have hred : save_presentation ps fp pi ci hd ce pr ls
        = save_presentation ps fp
            (match pi with | some i => some i | none => ci) none hd ce pr ls := by
      rcases pi with _ | i <;> rcases ci with _ | c <;> rfl
    rw [hred]
    exact main _
  · intro hd
    cases hd with
    | error e => simp [get_storage_mode]
    | ok h => cases hE : h.s3_enabled <;> simp [get_storage_mode, hE]
  · intro ps fp fe orr id
    cases fe
    · simp [open_presentation]
    · rcases orr with e | q <;> simp [open_presentation]
  · intro ps fp id e
    rfl
  · intro ps tp pe sd env cr id
    rcases hres : resolveTemplatePath tp pe sd with _ | tpath
    · simp [create_presentation_from_template, hres]
    · rcases cr with e | q <;> simp [create_presentation_from_template, hres]
  · intro ps tp sd env e id
    rfl
  · intro ps pi ci ir
    rcases pi with _ | i
    · rcases ci with _ | c
      · simp [get_presentation_info]
      · rcases hlp : ps.lookup c with _ | q
        · simp [get_presentation_info, hlp]
        · rcases ir with e | v <;> simp [get_presentation_info, hlp]
    · rcases hlp : ps.lookup i with _ | q
      · simp [get_presentation_info, hlp]
      · rcases ir with e | v <;> simp [get_presentation_info, hlp]
  · intro pid p e
    simp [get_presentation_info, List.lookup]
  · intro tp pe sd ir
    rcases hres : resolveTemplatePath tp pe sd with _ | tpath
    · simp [get_template_file_info, hres]
    · rcases ir with e | v <;> simp [get_template_file_info, hres]
  · intro tp sd e
    rfl
  · intro ps pi ci sr
    rcases pi with _ | i
    · rcases ci with _ | c
      · simp [set_core_properties]
      · rcases hlp : ps.lookup c with _ | q
        · simp [set_core_properties, hlp]
        · rcases sr with e | u <;> simp [set_core_properties, hlp]
    · rcases hlp : ps.lookup i with _ | q
      · simp [set_core_properties, hlp]
      · rcases sr with e | u <;> simp [set_core_properties, hlp]
  · intro pid p e
    simp [set_core_properties, List.lookup]
  · intro ps e id
    rfl

/-- C3: constructing the resolver with remote mode enabled and a missing
or empty bucket always fails at construction with the configuration
error, for every combination of the other configuration values; it never
yields a resolver at all (so no silent fallback to local mode); and
every successfully constructed resolver satisfies the invariant
`s3_enabled = true` implies the bucket is present and non-empty. -/
theorem resolver_fails_fast :
    (∀ env : Env, (pyLower (env.S3_ENABLED.getD "false") == "true") = true →
        pyTruthy env.S3_BUCKET_NAME = false →
        mkS3Handler env = .error "S3_ENABLED is true but S3_BUCKET_NAME is not set")
    ∧ (∀ env h, mkS3Handler env = .ok h → h.s3_enabled = true →
        pyTruthy h.s3_bucket = true
        ∧ ∃ b, h.s3_bucket = some b ∧ b ≠ "")
    ∧ (∀ env h, (pyLower (env.S3_ENABLED.getD "false") == "true") = true →
        pyTruthy env.S3_BUCKET_NAME = false →
        mkS3Handler env ≠ .ok h) := by
  have herr : ∀ env : Env, (pyLower (env.S3_ENABLED.getD "false") == "true") = true →
      pyTruthy env.S3_BUCKET_NAME = false →
      mkS3Handler env = .error "S3_ENABLED is true but S3_BUCKET_NAME is not set" := by
    intro env he hb
    simp only [mkS3Handler, he, hb]
    rfl
  refine ⟨herr, ?_, ?_⟩
  · intro env h hok hen
    have htruthy : pyTruthy h.s3_bucket = true := by
      simp only [mkS3Handler] at hok
      split at hok
      · split at hok
        · cases hok
        · split at hok
          · cases hok
          · cases hok
            next hbt _ =>
              simp at hbt
              simpa using hbt
      · cases hok
        simp at hen
    refine ⟨htruthy, ?_⟩
    cases hbk : h.s3_bucket with
    | none => rw [hbk] at htruthy; cases htruthy
    | some b =>
      refine ⟨b, rfl, ?_⟩
      rw [hbk] at htruthy
      simpa [pyTruthy] using htruthy
  · intro env h he hb hok
    rw [herr env he hb] at hok
    cases hok

/-- C3 witness: remote mode requested with a missing bucket fails with
the configuration error; an empty-string bucket likewise never yields a
resolver; and a successfully constructed enabled resolver has a present,
non-empty bucket. -/
theorem resolver_fails_fast_witness :
    mkS3Handler ⟨some "true", none, none, none, true⟩ =
      .error "S3_ENABLED is true but S3_BUCKET_NAME is not set"
    ∧ mkS3Handler ⟨some "true", some "", none, none, true⟩ ≠
        .ok ⟨false, none, "presentations/", "us-east-1"⟩
    ∧ pyTruthy (S3Handler.s3_bucket
        ⟨true, some "demo-bucket", "presentations/", "us-east-1"⟩) = true
    ∧ ∃ b, S3Handler.s3_bucket
        ⟨true, some "demo-bucket", "presentations/", "us-east-1"⟩ = some b ∧ b ≠ "" :=
  ⟨resolver_fails_fast.1 ⟨some "true", none, none, none, true⟩ (by decide) rfl,
   resolver_fails_fast.2.2 ⟨some "true", some "", none, none, true⟩
     ⟨false, none, "presentations/", "us-east-1"⟩ (by decide) (by decide),
   (resolver_fails_fast.2.1
     ⟨some "true", some "demo-bucket", some "presentations/", some "us-east-1", true⟩
     ⟨true, some "demo-bucket", "presentations/", "us-east-1"⟩ rfl rfl).1,
   (resolver_fails_fast.2.1
     ⟨some "true", some "demo-bucket", some "presentations/", some "us-east-1", true⟩
     ⟨true, some "demo-bucket", "presentations/", "us-east-1"⟩ rfl rfl).2⟩

/-- C4 counterexample: the extension step does not guarantee the final
filename ends with `.pptx` exactly once: the input `report.pptx.pptx`
already ends with `.pptx`, is passed through unchanged, and the filename
recorded in the upload result ends with `.pptx.pptx`. -/
theorem double_extension_counterexample :
    upload_presentation ⟨true, some "demo-bucket", "presentations/", "us-east-1"⟩
        ⟨1, 1⟩ "report.pptx.pptx" none =
      .ok (.ok "s3://demo-bucket/presentations/report.pptx.pptx"
             "https://demo-bucket.s3.us-east-1.amazonaws.com/presentations/report.pptx.pptx"
             "demo-bucket" "presentations/report.pptx.pptx" "report.pptx.pptx",
           [.s3Upload "demo-bucket" "presentations/report.pptx.pptx"])
    ∧ pyEndswith "report.pptx.pptx" ".pptx.pptx" = true :=
  ⟨rfl, by decide⟩

/-- C4 amended: the final filename always ends with `.pptx`; a name
already carrying the extension is not suffixed again; and the step never
introduces a double extension on its own — the result ends with
`.pptx.pptx` only when the input already did.  The upload result records
exactly this filename. -/
theorem extension_once_amended (name : String) :
    pyEndswith (ensurePptx name) ".pptx" = true
    ∧ (pyEndswith name ".pptx" = true → ensurePptx name = name)
    ∧ (pyEndswith (ensurePptx name) ".pptx.pptx" = true →
        pyEndswith name ".pptx.pptx" = true)
    ∧ (∀ h prs, S3Handler.s3_enabled h = true →
        upload_presentation h prs name none =
          .ok (.ok ("s3://" ++ optStr h.s3_bucket ++ "/"
                 ++ (rstripSlash h.s3_pfx ++ "/" ++ ensurePptx name))
               ("https://" ++ optStr h.s3_bucket ++ ".s3." ++ h.s3_region
                 ++ ".amazonaws.com/" ++ (rstripSlash h.s3_pfx ++ "/" ++ ensurePptx name))
               (optStr h.s3_bucket) (rstripSlash h.s3_pfx ++ "/" ++ ensurePptx name)
               (ensurePptx name),
             [.s3Upload (optStr h.s3_bucket)
                (rstripSlash h.s3_pfx ++ "/" ++ ensurePptx name)])) := by
  refine ⟨?_, ?_, ?_, ?_⟩
  · unfold ensurePptx
    by_cases h : pyEndswith name ".pptx" = true
    · rw [if_pos h]; exact h
    · rw [if_neg h]
      rw [pyEndswith_eq_true_iff]
      show ".pptx".data <:+ name.data ++ ".pptx".data
      exact List.suffix_append name.data ".pptx".data
  · intro h
    unfold ensurePptx
    rw [if_pos h]
  · intro h
    by_cases h0 : pyEndswith name ".pptx" = true
    · unfold ensurePptx at h; rw [if_pos h0] at h; exact h
    · exfalso
      apply h0
      unfold ensurePptx at h; rw [if_neg h0] at h
      rw [pyEndswith_eq_true_iff] at h
      rw [pyEndswith_eq_true_iff]
      have hd : (name ++ ".pptx").data = name.data ++ ".pptx".data := rfl
      have hd2 : (".pptx.pptx" : String).data = ".pptx".data ++ ".pptx".data := rfl
      rw [hd, hd2] at h
      rw [← List.reverse_prefix] at h
      rw [List.reverse_append, List.reverse_append] at h
      rw [List.prefix_append_right_inj] at h
      rw [List.reverse_prefix] at h
      exact h
  · intro h prs hen
    simp [upload_presentation, hen]

/-- C4 amended witness: a name already carrying the extension is not
suffixed again; an input that already ends `.pptx.pptx` is the only way
the output does; and a concrete enabled upload records the ensured
filename. -/
theorem extension_once_amended_witness :
    ensurePptx "deck.pptx" = "deck.pptx"
    ∧ pyEndswith "a.pptx.pptx" ".pptx.pptx" = true
    ∧ upload_presentation ⟨true, some "b", "p/", "r"⟩ ⟨0, 0⟩ "deck" none =
        .ok (.ok "s3://b/p/deck.pptx" "https://b.s3.r.amazonaws.com/p/deck.pptx"
               "b" "p/deck.pptx" "deck.pptx",
             [.s3Upload "b" "p/deck.pptx"]) :=
  ⟨(extension_once_amended "deck.pptx").2.1 (by decide),
   (extension_once_amended "a.pptx.pptx").2.2.1 (by decide),
   (extension_once_amended "deck").2.2.2 ⟨true, some "b", "p/", "r"⟩ ⟨0, 0⟩ rfl⟩

/-- C5 counterexample: Python `rstrip('/')` removes every trailing
separator, not exactly one: `normalize("decks//")` is `"decks"`, not the
`"decks/"` the claim requires. -/
theorem normalize_single_strip_counterexample :
    rstripSlash "decks//" = "decks" ∧ rstripSlash "decks//" ≠ "decks/" := by
  constructor <;> decide

/-- C5 amended: the normalize step strips every trailing separator from
the prefix: the result never ends with `"/"`, and the input is the result
followed by some run of `'/'` characters (so a prefix without a trailing
separator is unchanged, and one with trailing separators loses all of
them). -/
theorem normalize_strips_all_trailing (p : String) :
    pyEndswith (rstripSlash p) "/" = false
    ∧ ∃ k, p.data = (rstripSlash p).data ++ List.replicate k '/' :=
  ⟨rstripSlash_not_endswith_slash p, rstripSlash_append_replicate p⟩

/-- C6: the normalize step of key construction is idempotent. -/
theorem normalize_idempotent (p : String) :
    rstripSlash (rstripSlash p) = rstripSlash p := by
  show String.mk (dropTrailingSlashes (dropTrailingSlashes p.data))
      = String.mk (dropTrailingSlashes p.data)
  rw [dropTrailingSlashes_idem]

/-- C7: when the upload succeeds, a failed signed-URL derivation (the
signing collaborator yielding no URL) never downgrades the result: the
`success` field is `true`, the upload fields (bucket, key, filename and
both URIs) are all present, and the `presigned_url` field is absent. -/
theorem presign_failure_no_downgrade
    (ps : List (String × Pres)) (fp pid : String) (p : Pres)
    (h : S3Handler) (ls : String → Except String String)
    (hmem : ps.lookup pid = some p)
    (hen : h.s3_enabled = true) :
    (save_presentation ps fp (some pid) none (.ok h) none none ls).1.success = true
    ∧ (save_presentation ps fp (some pid) none (.ok h) none none ls).1.presigned_url = none
    ∧ ((save_presentation ps fp (some pid) none (.ok h) none none ls).1.bucket).isSome = true
    ∧ ((save_presentation ps fp (some pid) none (.ok h) none none ls).1.key).isSome = true
    ∧ ((save_presentation ps fp (some pid) none (.ok h) none none ls).1.filename).isSome = true
    ∧ ((save_presentation ps fp (some pid) none (.ok h) none none ls).1.s3_url).isSome = true
    ∧ ((save_presentation ps fp (some pid) none (.ok h) none none ls).1.https_url).isSome = true := by
  simp [save_presentation, upload_presentation, generate_presigned_url, hmem, hen]

/-- C7 witness: a concrete successful upload whose presigned-URL step
yields nothing still reports success with every upload field present. -/
theorem presign_failure_no_downgrade_witness :
    (save_presentation [("p1", ⟨2, 1⟩)] "deck" (some "p1") none
        (.ok ⟨true, some "demo-bucket", "presentations/", "us-east-1"⟩)
        none none (fun s => .ok s)).1.success = true
    ∧ (save_presentation [("p1", ⟨2, 1⟩)] "deck" (some "p1") none
        (.ok ⟨true, some "demo-bucket", "presentations/", "us-east-1"⟩)
        none none (fun s => .ok s)).1.presigned_url = none
    ∧ ((save_presentation [("p1", ⟨2, 1⟩)] "deck" (some "p1") none
        (.ok ⟨true, some "demo-bucket", "presentations/", "us-east-1"⟩)
        none none (fun s => .ok s)).1.bucket).isSome = true
    ∧ ((save_presentation [("p1", ⟨2, 1⟩)] "deck" (some "p1") none
        (.ok ⟨true, some "demo-bucket", "presentations/", "us-east-1"⟩)
        none none (fun s => .ok s)).1.key).isSome = true
    ∧ ((save_presentation [("p1", ⟨2, 1⟩)] "deck" (some "p1") none
        (.ok ⟨true, some "demo-bucket", "presentations/", "us-east-1"⟩)
        none none (fun s => .ok s)).1.filename).isSome = true
    ∧ ((save_presentation [("p1", ⟨2, 1⟩)] "deck" (some "p1") none
        (.ok ⟨true, some "demo-bucket", "presentations/", "us-east-1"⟩)
        none none (fun s => .ok s)).1.s3_url).isSome = true
    ∧ ((save_presentation [("p1", ⟨2, 1⟩)] "deck" (some "p1") none
        (.ok ⟨true, some "demo-bucket", "presentations/", "us-east-1"⟩)
        none none (fun s => .ok s)).1.https_url).isSome = true :=
  presign_failure_no_downgrade [("p1", ⟨2, 1⟩)] "deck" "p1" ⟨2, 1⟩
    ⟨true, some "demo-bucket", "presentations/", "us-east-1"⟩ (fun s => .ok s) rfl rfl

/-- C8: with remote mode disabled, `save_presentation` triggers no
remote-store operation; the only effect is the local write of the
caller-supplied path, passed unmodified to the local save routine, whose
resolved path is returned in the result. -/
theorem local_persist_verbatim
    (ps : List (String × Pres)) (fp pid : String) (p : Pres)
    (h : S3Handler) (ce pr : Option String) (ls : String → Except String String)
    (hmem : ps.lookup pid = some p)
    (hen : h.s3_enabled = false) :
    (save_presentation ps fp (some pid) none (.ok h) ce pr ls).2 = [.localWrite fp]
    ∧ ((save_presentation ps fp (some pid) none (.ok h) ce pr ls).2.all
        (fun e => !isRemoteOp e)) = true
    ∧ (∀ sp, ls fp = .ok sp →
        (save_presentation ps fp (some pid) none (.ok h) ce pr ls).1.file_path = some sp
        ∧ (save_presentation ps fp (some pid) none (.ok h) ce pr ls).1.success = true) := by
  refine ⟨?_, ?_, ?_⟩
  · simp only [save_presentation, hmem, hen]
    cases hls : ls fp <;> simp
  · simp only [save_presentation, hmem, hen]
    cases hls : ls fp <;> simp [isRemoteOp]
  · intro sp hsp
    simp [save_presentation, hmem, hen, hsp]

/-- C8 witness: a concrete local-mode save writes exactly the supplied
path and returns the resolved path. -/
theorem local_persist_verbatim_witness :
    (save_presentation [("p1", ⟨2, 1⟩)] "out/deck.pptx" (some "p1") none
        (.ok ⟨false, none, "presentations/", "us-east-1"⟩)
        none none (fun s => .ok s)).2 = [.localWrite "out/deck.pptx"]
    ∧ ((save_presentation [("p1", ⟨2, 1⟩)] "out/deck.pptx" (some "p1") none
        (.ok ⟨false, none, "presentations/", "us-east-1"⟩)
        none none (fun s => .ok s)).2.all (fun e => !isRemoteOp e)) = true
    ∧ (save_presentation [("p1", ⟨2, 1⟩)] "out/deck.pptx" (some "p1") none
        (.ok ⟨false, none, "presentations/", "us-east-1"⟩)
        none none (fun s => .ok s)).1.file_path = some "out/deck.pptx"
    ∧ (save_presentation [("p1", ⟨2, 1⟩)] "out/deck.pptx" (some "p1") none
        (.ok ⟨false, none, "presentations/", "us-east-1"⟩)
        none none (fun s => .ok s)).1.success = true := by
  have hmain := local_persist_verbatim [("p1", ⟨2, 1⟩)] "out/deck.pptx" "p1" ⟨2, 1⟩
    ⟨false, none, "presentations/", "us-east-1"⟩ none none (fun s => .ok s) rfl rfl
  exact ⟨hmain.1, hmain.2.1,
    (hmain.2.2 "out/deck.pptx" rfl).1, (hmain.2.2 "out/deck.pptx" rfl).2⟩

/-- C9: the resolver is a process-wide singleton read at first use: a
first call with an empty cache constructs the handler from the
environment and stores it, and every later call returns that identical
instance and leaves the cache unchanged, regardless of the environment
at the time of the later call. -/
theorem singleton_first_use :
    (∀ env h, mkS3Handler env = .ok h →
        get_s3_handler none env = .ok (h, some h))
    ∧ (∀ h env, get_s3_handler (some h) env = .ok (h, some h)) := by
  constructor
  · intro env h hok
    simp [get_s3_handler, hok]
  · intro h env
    rfl

/-- C9 witness: a concrete first call caches the constructed handler and
a second call under a different environment returns the same instance. -/
theorem singleton_first_use_witness :
    get_s3_handler none ⟨none, none, none, none, true⟩ =
      .ok (⟨false, none, "presentations/", "us-east-1"⟩,
           some ⟨false, none, "presentations/", "us-east-1"⟩)
    ∧ get_s3_handler (some ⟨false, none, "presentations/", "us-east-1"⟩)
        ⟨some "true", some "other", some "x/", some "eu-west-1", true⟩ =
      .ok (⟨false, none, "presentations/", "us-east-1"⟩,
           some ⟨false, none, "presentations/", "us-east-1"⟩) :=
  ⟨singleton_first_use.1 ⟨none, none, none, none, true⟩
     ⟨false, none, "presentations/", "us-east-1"⟩ rfl,
   singleton_first_use.2 ⟨false, none, "presentations/", "us-east-1"⟩
     ⟨some "true", some "other", some "x/", some "eu-west-1", true⟩⟩

/-- C10: with `id = None` the assigned identifier is `"presentation_"`
followed by the registry size plus one, for both `create_presentation`
and `open_presentation`; and in a registry already holding that
identifier the operation silently replaces the stored presentation while
reporting success, so the registry size does not grow. -/
theorem auto_id_formula_and_silent_replace :
    (∀ ps p, create_presentation ps (.ok p) none =
        .ok ({ presentation_id := "presentation_" ++ toString (ps.length + 1),
               message := "Created new presentation with ID: "
                 ++ ("presentation_" ++ toString (ps.length + 1)),
               slide_count := p.slides },
             dictInsert ps ("presentation_" ++ toString (ps.length + 1)) p))
    ∧ (∀ ps fp p, open_presentation ps fp true (.ok p) none =
        ({ presentation_id := some ("presentation_" ++ toString (ps.length + 1)),
           message := some ("Opened presentation from " ++ fp ++ " with ID: "
             ++ ("presentation_" ++ toString (ps.length + 1))),
           slide_count := some p.slides },
         dictInsert ps ("presentation_" ++ toString (ps.length + 1)) p))
    ∧ create_presentation [("presentation_2", ⟨3, 1⟩)] (.ok ⟨5, 1⟩) none =
        .ok ({ presentation_id := "presentation_2",
               message := "Created new presentation with ID: presentation_2",
               slide_count := 5 },
             [("presentation_2", ⟨5, 1⟩)])
    ∧ (dictInsert [("presentation_2", ⟨3, 1⟩)] "presentation_2" ⟨5, 1⟩).length
        = [("presentation_2", (⟨3, 1⟩ : Pres))].length :=
  ⟨fun ps p => rfl, fun ps fp p => rfl, rfl, rfl⟩
